import Mathlib

/-!
Verification of the forum application's core logic: the vote engine
(`database/db.go` vote helpers plus the like/dislike handlers in
`handlers/post_handlers.go`), the session lifecycle
(`handlers/auth_handlers.go` plus the session helpers in `database/db.go`),
the cascade delete coordinators (`handlers/post_handlers.go`,
`handlers/comment_handlers.go`) and comment creation
(`handlers/comment_handlers.go`).

SQL tables are embedded as lists of row structures; each Go database helper
becomes a pure function on those lists, translating its single SQL statement
(`find?` for a point `SELECT` on a key, `filter` for `DELETE ... WHERE`,
update-or-append for `INSERT ... ON CONFLICT ... DO UPDATE`).  Timestamps are
integers (seconds); `time.Now()` becomes an explicit `now` parameter.
Fallible storage calls whose failure the handlers tolerate are modelled with
an explicit failure flag.  Columns no claim touches (timestamps on rows,
image URLs and the like) are omitted from the row structures.
-/

namespace Forum

/-- A row of the `post_votes` table (`db.go`): primary key
`(user_id, post_id)`, `vote` constrained to `-1` or `1` by a CHECK clause. -/
structure VoteRow where
  userId : Int
  postId : Int
  vote : Int
deriving DecidableEq, Repr

/-- The SQL predicate `user_id = ? AND post_id = ?` used by every point
query and point delete on `post_votes`. -/
def voteKey (u p : Int) (r : VoteRow) : Bool :=
  r.userId == u && r.postId == p

/-- `database.GetUserPostVote` (db.go:419): `SELECT vote FROM post_votes
WHERE user_id = ? AND post_id = ?`; `none` models `sql.ErrNoRows`
(the Go function then returns `(0, false, nil)`). -/
def GetUserPostVote (rows : List VoteRow) (u p : Int) : Option Int :=
  (rows.find? (voteKey u p)).map VoteRow.vote

/-- `database.RemovePostVote` (db.go:433): `DELETE FROM post_votes WHERE
user_id = ? AND post_id = ?`. -/
def RemovePostVote (rows : List VoteRow) (u p : Int) : List VoteRow :=
  rows.filter (fun r => !(voteKey u p r))

/-- The upsert `INSERT INTO post_votes (user_id, post_id, vote) VALUES
(?, ?, v) ON CONFLICT(user_id, post_id) DO UPDATE SET vote = v` shared by
`SetPostLike` and `SetPostDislike`: update the conflicting row when the
key is present, insert a fresh row otherwise. -/
def setPostVote (rows : List VoteRow) (u p v : Int) : List VoteRow :=
  if rows.any (voteKey u p) then
    rows.map (fun r => if voteKey u p r then { r with vote := v } else r)
  else
    rows ++ [⟨u, p, v⟩]

/-- `database.SetPostLike` (db.go:440): upsert the vote to `1`. -/
def SetPostLike (rows : List VoteRow) (u p : Int) : List VoteRow :=
  setPostVote rows u p 1

/-- `database.SetPostDislike` (db.go:450): upsert the vote to `-1`. -/
def SetPostDislike (rows : List VoteRow) (u p : Int) : List VoteRow :=
  setPostVote rows u p (-1)

/-- Vote mutation of `handlers.LikeHandler` (post_handlers.go:583-607):
fetch the current vote; if it exists and equals `1`, remove it, otherwise
upsert a like. -/
def likePost (rows : List VoteRow) (u p : Int) : List VoteRow :=
  match GetUserPostVote rows u p with
  | some v => if v == 1 then RemovePostVote rows u p else SetPostLike rows u p
  | none => SetPostLike rows u p

/-- Vote mutation of `handlers.DislikeHandler` (post_handlers.go:668-692):
fetch the current vote; if it exists and equals `-1`, remove it, otherwise
upsert a dislike. -/
def dislikePost (rows : List VoteRow) (u p : Int) : List VoteRow :=
  match GetUserPostVote rows u p with
  | some v => if v == -1 then RemovePostVote rows u p else SetPostDislike rows u p
  | none => SetPostDislike rows u p

/-- Number of `post_votes` rows carrying a given `(user_id, post_id)` key. -/
def voteKeyCount (rows : List VoteRow) (u p : Int) : Nat :=
  (rows.filter (voteKey u p)).length

/-- The `PRIMARY KEY(user_id, post_id)` invariant of `post_votes`. -/
def AtMostOnePerKey (rows : List VoteRow) : Prop :=
  ∀ u p, voteKeyCount rows u p ≤ 1

/-- Result row of `database.GetPostVoteStats` (db.go:460): like count,
dislike count, and the caller's own vote. -/
structure VoteStats where
  likes : Nat
  dislikes : Nat
  userVote : Option Int
deriving DecidableEq, Repr

/-- `database.GetPostVoteStats` (db.go:460-476): one query summing
`vote = 1` and `vote = -1` cases over `post_votes WHERE post_id = ?`, with a
subquery for the caller's vote; `none` for `userVote` models the NULL
subquery result (the Go function then reports `(likes, dislikes, 0, false)`). -/
def GetPostVoteStats (rows : List VoteRow) (u p : Int) : VoteStats where
  likes := (rows.filter (fun r => r.postId == p && r.vote == 1)).length
  dislikes := (rows.filter (fun r => r.postId == p && r.vote == (-1))).length
  userVote := GetUserPostVote rows u p

/-- Number of `post_votes` rows for a given post, the live row count the
stats query scans. -/
def postRowCount (rows : List VoteRow) (p : Int) : Nat :=
  (rows.filter (fun r => r.postId == p)).length

/-- The in-memory session payload `models.SessionData` (models.go). -/
structure SessionData where
  userId : Int
  role : String
  expiry : Int
deriving DecidableEq, Repr

/-- A row of the `sessions` table (db.go): `session_id` is the primary key. -/
structure SessionRow where
  sessionId : String
  userId : Int
  role : String
  expiry : Int
deriving DecidableEq, Repr

/-- The in-memory mirror `database.Sessions`, a Go map keyed by session id,
modelled as an association list; its reader/writer lock is irrelevant to the
sequential runs the claims describe. -/
abbrev SessionMirror := List (String × SessionData)

/-- Go map assignment `Sessions[sid] = data`. -/
def mirrorInsert (m : SessionMirror) (sid : String) (d : SessionData) : SessionMirror :=
  (sid, d) :: m.filter (fun e => e.fst != sid)

/-- Go map deletion `delete(Sessions, sid)`. -/
def mirrorErase (m : SessionMirror) (sid : String) : SessionMirror :=
  m.filter (fun e => e.fst != sid)

/-- Go map lookup `Sessions[sid]`. -/
def mirrorGet (m : SessionMirror) (sid : String) : Option SessionData :=
  (m.find? (fun e => e.fst == sid)).map Prod.snd

/-- `database.GetSessionData` (db.go:126): `SELECT user_id, role, expiry FROM
sessions WHERE session_id = ?`; `none` models `sql.ErrNoRows`. -/
def GetSessionData (store : List SessionRow) (sid : String) : Option (Int × String × Int) :=
  (store.find? (fun r => r.sessionId == sid)).map (fun r => (r.userId, r.role, r.expiry))

/-- `database.DeleteExpiredSession` (db.go:139): `DELETE FROM sessions WHERE
session_id = ?`; the caller logs a failure and carries on. -/
def DeleteExpiredSession (store : List SessionRow) (sid : String) : List SessionRow :=
  store.filter (fun r => r.sessionId != sid)

/-- `database.DeleteUserSessions` (db.go:247): `DELETE FROM sessions WHERE
user_id = ?`. -/
def DeleteUserSessions (store : List SessionRow) (uid : Int) : List SessionRow :=
  store.filter (fun r => r.userId != uid)

/-- `database.CreateSession` (db.go:260): `INSERT INTO sessions (session_id,
user_id, role, expiry) VALUES (?, ?, ?, ?)`. -/
def CreateSession (store : List SessionRow) (sid : String) (uid : Int) (role : String)
    (expiry : Int) : List SessionRow :=
  store ++ [⟨sid, uid, role, expiry⟩]

/-- `database.DeleteSession` (db.go:149-157): run the delete statement; on
an error (`execFails`) log, return the error and leave the mirror alone; on
success also remove the in-memory mirror entry.  The third component is the
returned error flag. -/
def DeleteSession (store : List SessionRow) (m : SessionMirror) (sid : String)
    (execFails : Bool) : List SessionRow × SessionMirror × Bool :=
  if execFails then (store, m, true)
  else (store.filter (fun r => r.sessionId != sid), mirrorErase m sid, false)

/-- What `handlers.IsAuthenticated` returns plus the session state it leaves
behind. -/
structure AuthResult where
  isAuth : Bool
  userId : Int
  role : String
  store : List SessionRow
  mirror : SessionMirror
deriving DecidableEq, Repr

/-- `handlers.IsAuthenticated` (auth_handlers.go:98-130): read the session
cookie; a missing cookie or an `ErrNoRows` lookup yields not-authenticated;
a row whose expiry is strictly before `now` (`expiry.Before(time.Now())`) is
deleted best-effort (`delFails` models the delete statement failing, which
is logged and leaves the row) and yields not-authenticated; a live row
refreshes the in-memory mirror entry and yields the user and role. -/
def IsAuthenticated (store : List SessionRow) (m : SessionMirror)
    (cookie : Option String) (now : Int) (delFails : Bool) : AuthResult :=
  match cookie with
  | none => ⟨false, 0, "", store, m⟩
  | some sid =>
    match GetSessionData store sid with
    | none => ⟨false, 0, "", store, m⟩
    | some (uid, role, expiry) =>
      if expiry < now then
        ⟨false, 0, "", if delFails then store else DeleteExpiredSession store sid, m⟩
      else
        ⟨true, uid, role, store, mirrorInsert m sid ⟨uid, role, expiry⟩⟩

/-- Session-creation slice of `handlers.LoginHandler`
(auth_handlers.go:332-346): after the password check, delete every session
of the user, then insert a fresh session whose expiry is 24 hours (86400
seconds) after `now`.  The handler sets the cookie but never touches the
in-memory mirror, which passes through unchanged. -/
def loginCreateSession (store : List SessionRow) (m : SessionMirror)
    (uid : Int) (role : String) (now : Int) (newSid : String) :
    List SessionRow × SessionMirror :=
  (CreateSession (DeleteUserSessions store uid) newSid uid role (now + 86400), m)

/-- What `handlers.LogoutHandler` leaves behind: the two session states and
whether the response cleared the session cookie. -/
structure LogoutResult where
  store : List SessionRow
  mirror : SessionMirror
  cookieCleared : Bool
deriving DecidableEq, Repr

/-- `handlers.LogoutHandler` (auth_handlers.go:374-395): when a session
cookie is present, call `DeleteSession` (a failure is only logged) and clear
the cookie unconditionally; without a cookie nothing happens. -/
def LogoutHandler (store : List SessionRow) (m : SessionMirror)
    (cookie : Option String) (execFails : Bool) : LogoutResult :=
  match cookie with
  | none => ⟨store, m, false⟩
  | some sid =>
    let r := DeleteSession store m sid execFails
    ⟨r.1, r.2.1, true⟩

/-- A row of `posts` (db.go), restricted to the columns the delete path
reads. -/
structure PostRow where
  id : Int
  userId : Int
deriving DecidableEq, Repr

/-- A row of the `post_categories` junction table (db.go). -/
structure PostCatRow where
  postId : Int
  categoryId : Int
deriving DecidableEq, Repr

/-- A row of `comments` (db.go), restricted to the columns the claims
touch; `content` is the Go string as its list of runes. -/
structure CommentRow where
  id : Int
  postId : Int
  userId : Int
  content : List Char
deriving DecidableEq, Repr

/-- A row of the `comment_votes` table (db.go). -/
structure CommentVoteRow where
  userId : Int
  commentId : Int
  vote : Int
deriving DecidableEq, Repr

/-- The persisted tables the cascade coordinators operate on. -/
structure DBState where
  posts : List PostRow
  postCategories : List PostCatRow
  comments : List CommentRow
  postVotes : List VoteRow
  commentVotes : List CommentVoteRow
deriving DecidableEq, Repr

/-- `database.GetPostOwnerID` (db.go:281): `SELECT user_id FROM posts WHERE
id = ?`; `none` models `sql.ErrNoRows`. -/
def GetPostOwnerID (posts : List PostRow) (pid : Int) : Option Int :=
  (posts.find? (fun r => r.id == pid)).map PostRow.userId

/-- `database.DeletePostCategories` (db.go:398): `DELETE FROM
post_categories WHERE post_id = ?`. -/
def DeletePostCategories (pcs : List PostCatRow) (pid : Int) : List PostCatRow :=
  pcs.filter (fun r => r.postId != pid)

/-- `database.DeletePostComments` (db.go:405): `DELETE FROM comments WHERE
post_id = ?`. -/
def DeletePostComments (cs : List CommentRow) (pid : Int) : List CommentRow :=
  cs.filter (fun r => r.postId != pid)

/-- `database.DeletePostVotes` (db.go:412): `DELETE FROM post_votes WHERE
post_id = ?`. -/
def DeletePostVotes (votes : List VoteRow) (pid : Int) : List VoteRow :=
  votes.filter (fun r => r.postId != pid)

/-- `database.DeletePost` (db.go:349): `DELETE FROM posts WHERE id = ?`. -/
def DeletePost (posts : List PostRow) (pid : Int) : List PostRow :=
  posts.filter (fun r => r.id != pid)

/-- `database.GetCommentOwnerID` (db.go:770): `SELECT user_id FROM comments
WHERE id = ?`. -/
def GetCommentOwnerID (cs : List CommentRow) (cid : Int) : Option Int :=
  (cs.find? (fun r => r.id == cid)).map CommentRow.userId

/-- `database.DeleteCommentVotes` (db.go:541): `DELETE FROM comment_votes
WHERE comment_id = ?`. -/
def DeleteCommentVotes (cvs : List CommentVoteRow) (cid : Int) : List CommentVoteRow :=
  cvs.filter (fun r => r.commentId != cid)

/-- `database.DeleteComment` (db.go:534): `DELETE FROM comments WHERE
id = ?`. -/
def DeleteComment (cs : List CommentRow) (cid : Int) : List CommentRow :=
  cs.filter (fun r => r.id != cid)

/-- Outcome a delete handler reports to the client. -/
inductive DeleteOutcome where
  | ok
  | notFound
  | forbidden
deriving DecidableEq, Repr

/-- `handlers.DeletePostHandler` (post_handlers.go:478-546), after method
and authentication checks: look up the owner (`ErrNoRows` → 404 Not Found),
refuse with 403 unless the caller is the owner or an admin, then delete the
post's category links, its comments, its votes and finally the post row, in
that order, unconditionally. -/
def DeletePostHandler (s : DBState) (uid : Int) (role : String) (pid : Int) :
    DeleteOutcome × DBState :=
  match GetPostOwnerID s.posts pid with
  | none => (.notFound, s)
  | some owner =>
    if uid != owner && role != "admin" then (.forbidden, s)
    else
      let s1 := { s with postCategories := DeletePostCategories s.postCategories pid }
      let s2 := { s1 with comments := DeletePostComments s1.comments pid }
      let s3 := { s2 with postVotes := DeletePostVotes s2.postVotes pid }
      let s4 := { s3 with posts := DeletePost s3.posts pid }
      (.ok, s4)

/-- `handlers.DeleteCommentHandler` (comment_handlers.go:138-247), after
method and authentication checks: look up the owner (`ErrNoRows` → 404),
refuse with 403 unless admin or owner, then delete the comment's votes and
the comment row, in that order. -/
def DeleteCommentHandler (s : DBState) (uid : Int) (role : String) (cid : Int) :
    DeleteOutcome × DBState :=
  match GetCommentOwnerID s.comments cid with
  | none => (.notFound, s)
  | some owner =>
    if role != "admin" && uid != owner then (.forbidden, s)
    else
      let s1 := { s with commentVotes := DeleteCommentVotes s.commentVotes cid }
      let s2 := { s1 with comments := DeleteComment s1.comments cid }
      (.ok, s2)

/-- Go `unicode.IsSpace`, the rune class `strings.TrimSpace` trims: the
Unicode White_Space code points. -/
def goIsSpace (c : Char) : Bool :=
  c.toNat == 0x09 || c.toNat == 0x0A || c.toNat == 0x0B || c.toNat == 0x0C ||
  c.toNat == 0x0D || c.toNat == 0x20 || c.toNat == 0x85 || c.toNat == 0xA0 ||
  c.toNat == 0x1680 || (Nat.ble 0x2000 c.toNat && Nat.ble c.toNat 0x200A) ||
  c.toNat == 0x2028 || c.toNat == 0x2029 || c.toNat == 0x202F ||
  c.toNat == 0x205F || c.toNat == 0x3000

/-- `strings.TrimSpace` on the comment content, over runes. -/
def trimSpace (s : List Char) : List Char :=
  ((s.dropWhile goIsSpace).reverse.dropWhile goIsSpace).reverse

/-- UTF-8 byte width of a rune; Go `len` on a string counts bytes. -/
def utf8Len (c : Char) : Nat :=
  if c.toNat < 0x80 then 1 else if c.toNat < 0x800 then 2
  else if c.toNat < 0x10000 then 3 else 4

/-- Byte length of a Go string represented as its runes. -/
def byteLen (s : List Char) : Nat :=
  (s.map utf8Len).sum

/-- `database.CreateComment` (db.go:480): `INSERT INTO comments (post_id,
user_id, content, created_at) VALUES (?, ?, ?, ?)`, storing the content
exactly as passed (the timestamp column is omitted here). -/
def CreateComment (cs : List CommentRow) (newId pid uid : Int)
    (content : List Char) : List CommentRow :=
  cs ++ [⟨newId, pid, uid, content⟩]

/-- Outcome of a comment-creation request: the JSON `success` flag and the
comments table afterwards. -/
structure CommentCreateResult where
  success : Bool
  comments : List CommentRow
deriving DecidableEq, Repr

/-- Validation and insert slice of `handlers.CommentHandler`
(comment_handlers.go:18-133), for an authenticated request whose post id
parses: reject empty content (`content == ""` falls under the
required-fields check), whitespace-only content, trimmed content shorter
than 3 bytes and trimmed content longer than 500 bytes; otherwise insert
the original, untrimmed content. -/
def CommentHandler (cs : List CommentRow) (uid pid newId : Int)
    (content : List Char) : CommentCreateResult :=
  if content == [] then ⟨false, cs⟩
  else if trimSpace content == [] then ⟨false, cs⟩
  else if byteLen (trimSpace content) < 3 then ⟨false, cs⟩
  else if byteLen (trimSpace content) > 500 then ⟨false, cs⟩
  else ⟨true, CreateComment cs newId pid uid content⟩

/-- Role string of an ordinary user, for concrete runs. -/
def userRole : String := "user"

/-- A sample session token for concrete runs. -/
def tokA : String := "tok-a"

/-- A second, distinct sample session token. -/
def tokB : String := "tok-b"

/-- A one-post, one-comment database state for concrete cascade runs: post 1
owned by user 1, with one category link, one comment (id 1, by user 2), one
post vote and one comment vote. -/
def sampleState : DBState where
  posts := [⟨1, 1⟩]
  postCategories := [⟨1, 2⟩]
  comments := [⟨1, 1, 2, []⟩]
  postVotes := [⟨2, 1, 1⟩]
  commentVotes := [⟨2, 1, 1⟩]

/- ### Helper lemmas about the vote-table primitives -/

theorem voteKey_mk (u p v u' p' : Int) :
    voteKey u' p' ⟨u, p, v⟩ = (u == u' && p == p') := rfl

theorem voteKey_update (v u' p' : Int) (r : VoteRow) :
    voteKey u' p' { r with vote := v } = voteKey u' p' r := rfl

/-- A point delete erases the key: the lookup after `RemovePostVote` is
`none`. -/
theorem getUserPostVote_remove (rows : List VoteRow) (u p : Int) :
    GetUserPostVote (RemovePostVote rows u p) u p = none := by
  unfold GetUserPostVote RemovePostVote
  have hnone : (rows.filter (fun r => !(voteKey u p r))).find? (voteKey u p) = none := by
    rw [List.find?_eq_none]
    intro x hx
    rcases List.mem_filter.mp hx with ⟨-, hkey⟩
    simp only [Bool.not_eq_eq_eq_not, Bool.not_true] at hkey
    simp [hkey]
  rw [hnone]
  rfl

/-- Updating votes in place never touches a row's key, so the in-place
branch of the upsert leaves every key's filtered row count unchanged. -/
theorem filter_length_map_update (rows : List VoteRow) (u p v u' p' : Int) :
    (List.filter (voteKey u' p')
      (rows.map (fun r => if voteKey u p r then { r with vote := v } else r))).length =
      (List.filter (voteKey u' p') rows).length := by
  induction rows with
  | nil => rfl
  | cons r rs ih =>
    by_cases hr : voteKey u p r <;> by_cases hr' : voteKey u' p' r <;>
      simp [List.filter, hr, hr', voteKey_update, ih]

/-- The upsert leaves the key mapped to the new value. -/
theorem getUserPostVote_set (rows : List VoteRow) (u p v : Int) :
    GetUserPostVote (setPostVote rows u p v) u p = some v := by
  unfold setPostVote
  by_cases h : rows.any (voteKey u p)
  · rw [if_pos h]
    induction rows with
    | nil => simp at h
    | cons r rs ih =>
      by_cases hr : voteKey u p r
      · simp [GetUserPostVote, List.find?, hr, voteKey_update]
      · have hrs : rs.any (voteKey u p) := by
          rcases List.any_eq_true.mp h with ⟨x, hmem, hx⟩
          rcases List.mem_cons.mp hmem with rfl | hmem2
          · exact absurd hx hr
          · exact List.any_eq_true.mpr ⟨x, hmem2, hx⟩
        have := ih hrs
        simpa [GetUserPostVote, List.find?, hr, voteKey_update] using this
  · rw [if_neg h]
    have hnone : rows.find? (voteKey u p) = none := by
      rw [List.find?_eq_none]
      intro x hx hkey
      exact h (List.any_eq_true.mpr ⟨x, hx, hkey⟩)
    unfold GetUserPostVote
    rw [List.find?_append, hnone]
    simp [List.find?, voteKey_mk]

/-- The lookup is `none` exactly when no row carries the key. -/
theorem getUserPostVote_eq_none_iff (rows : List VoteRow) (u p : Int) :
    GetUserPostVote rows u p = none ↔ voteKeyCount rows u p = 0 := by
  unfold GetUserPostVote voteKeyCount
  rw [Option.map_eq_none', List.find?_eq_none, List.length_eq_zero,
    List.filter_eq_nil_iff]

/-- A successful lookup exhibits a row with the key. -/
theorem voteKeyCount_pos_of_get_some (rows : List VoteRow) (u p v : Int)
    (h : GetUserPostVote rows u p = some v) : 0 < voteKeyCount rows u p := by
  by_contra hle
  have h0 : voteKeyCount rows u p = 0 := Nat.eq_zero_of_not_pos hle
  rw [← getUserPostVote_eq_none_iff] at h0
  rw [h0] at h
  exact Option.noConfusion h

/-- `RemovePostVote` zeroes the count at its own key. -/
theorem voteKeyCount_remove_self (rows : List VoteRow) (u p : Int) :
    voteKeyCount (RemovePostVote rows u p) u p = 0 := by
  unfold voteKeyCount RemovePostVote
  rw [List.length_eq_zero, List.filter_eq_nil_iff]
  intro a ha
  rcases List.mem_filter.mp ha with ⟨-, hkey⟩
  simp only [Bool.not_eq_eq_eq_not, Bool.not_true] at hkey
  simp [hkey]

/-- `RemovePostVote` never increases any key's count. -/
theorem voteKeyCount_remove_le (rows : List VoteRow) (u p u' p' : Int) :
    voteKeyCount (RemovePostVote rows u p) u' p' ≤ voteKeyCount rows u' p' :=
  ((List.filter_sublist rows).filter _).length_le

/-- When the key is present the upsert rewrites votes in place, so every
key's row count is unchanged. -/
theorem voteKeyCount_set_present (rows : List VoteRow) (u p v u' p' : Int)
    (h : rows.any (voteKey u p)) :
    voteKeyCount (setPostVote rows u p v) u' p' = voteKeyCount rows u' p' := by
  unfold setPostVote voteKeyCount
  rw [if_pos h]
  exact filter_length_map_update rows u p v u' p'

/-- When the key is absent the upsert appends one fresh row, raising only
that key's count and only to one. -/
theorem voteKeyCount_set_absent (rows : List VoteRow) (u p v u' p' : Int)
    (h : ¬ rows.any (voteKey u p)) :
    voteKeyCount (setPostVote rows u p v) u' p' =
      voteKeyCount rows u' p' + (if u == u' && p == p' then 1 else 0) := by
  unfold setPostVote voteKeyCount
  rw [if_neg h, List.filter_append, List.length_append]
  by_cases hk : (u == u' && p == p') = true <;>
    simp [List.filter, voteKey, hk]

/-- A `none` lookup means no row carries the key, so the upsert's conflict
probe fails. -/
theorem not_any_of_get_none (rows : List VoteRow) (u p : Int)
    (hget : GetUserPostVote rows u p = none) :
    ¬ rows.any (voteKey u p) = true := by
  intro hx
  rcases List.any_eq_true.mp hx with ⟨x, hmem, hkey⟩
  have h0 := (getUserPostVote_eq_none_iff rows u p).mp hget
  unfold voteKeyCount at h0
  rw [List.length_eq_zero, List.filter_eq_nil_iff] at h0
  exact h0 x hmem hkey

/-- A `some` lookup exhibits a row with the key, so the upsert's conflict
probe succeeds. -/
theorem any_of_get_some (rows : List VoteRow) (u p v : Int)
    (hget : GetUserPostVote rows u p = some v) :
    rows.any (voteKey u p) = true := by
  rcases Option.map_eq_some'.mp hget with ⟨r, hfind, -⟩
  exact List.any_eq_true.mpr
    ⟨r, List.mem_of_find?_eq_some hfind, List.find?_some hfind⟩

/-- `likePost` preserves the primary-key invariant. -/
theorem atMostOne_likePost (rows : List VoteRow) (u p : Int)
    (hinv : AtMostOnePerKey rows) : AtMostOnePerKey (likePost rows u p) := by
  intro u' p'
  unfold likePost
  cases hget : GetUserPostVote rows u p with
  | none =>
    have hany := not_any_of_get_none rows u p hget
    rw [SetPostLike, voteKeyCount_set_absent rows u p 1 u' p' hany]
    by_cases hk : (u == u' && p == p') = true
    · have h0 : voteKeyCount rows u' p' = 0 := by
        have hk2 := (Bool.and_eq_true _ _).mp hk
        have hu : u = u' := eq_of_beq hk2.1
        have hp : p = p' := eq_of_beq hk2.2
        subst hu hp
        exact (getUserPostVote_eq_none_iff rows u p).mp hget
      rw [if_pos hk, h0]
    · rw [if_neg hk]
      exact hinv u' p'
  | some v =>
    dsimp only
    by_cases hv : (v == 1) = true
    · rw [if_pos hv]
      exact le_trans (voteKeyCount_remove_le rows u p u' p') (hinv u' p')
    · have hany := any_of_get_some rows u p v hget
      rw [if_neg hv, SetPostLike, voteKeyCount_set_present rows u p 1 u' p' hany]
      exact hinv u' p'

/-- `dislikePost` preserves the primary-key invariant. -/
theorem atMostOne_dislikePost (rows : List VoteRow) (u p : Int)
    (hinv : AtMostOnePerKey rows) : AtMostOnePerKey (dislikePost rows u p) := by
  intro u' p'
  unfold dislikePost
  cases hget : GetUserPostVote rows u p with
  | none =>
    have hany := not_any_of_get_none rows u p hget
    rw [SetPostDislike, voteKeyCount_set_absent rows u p (-1) u' p' hany]
    by_cases hk : (u == u' && p == p') = true
    · have h0 : voteKeyCount rows u' p' = 0 := by
        have hk2 := (Bool.and_eq_true _ _).mp hk
        have hu : u = u' := eq_of_beq hk2.1
        have hp : p = p' := eq_of_beq hk2.2
        subst hu hp
        exact (getUserPostVote_eq_none_iff rows u p).mp hget
      rw [if_pos hk, h0]
    · rw [if_neg hk]
      exact hinv u' p'
  | some v =>
    dsimp only
    by_cases hv : (v == -1) = true
    · rw [if_pos hv]
      exact le_trans (voteKeyCount_remove_le rows u p u' p') (hinv u' p')
    · have hany := any_of_get_some rows u p v hget
      rw [if_neg hv, SetPostDislike, voteKeyCount_set_present rows u p (-1) u' p' hany]
      exact hinv u' p'

/-- Unfolding equation for `likePost` when the lookup fails. -/
theorem likePost_get_none (rows : List VoteRow) (u p : Int)
    (h : GetUserPostVote rows u p = none) :
    likePost rows u p = SetPostLike rows u p := by
  unfold likePost
  rw [h]

/-- Unfolding equation for `likePost` when the lookup succeeds. -/
theorem likePost_get_some (rows : List VoteRow) (u p v : Int)
    (h : GetUserPostVote rows u p = some v) :
    likePost rows u p =
      if (v == 1) = true then RemovePostVote rows u p else SetPostLike rows u p := by
  unfold likePost
  rw [h]

/-- Unfolding equation for `dislikePost` when the lookup fails. -/
theorem dislikePost_get_none (rows : List VoteRow) (u p : Int)
    (h : GetUserPostVote rows u p = none) :
    dislikePost rows u p = SetPostDislike rows u p := by
  unfold dislikePost
  rw [h]

/-- Unfolding equation for `dislikePost` when the lookup succeeds. -/
theorem dislikePost_get_some (rows : List VoteRow) (u p v : Int)
    (h : GetUserPostVote rows u p = some v) :
    dislikePost rows u p =
      if (v == -1) = true then RemovePostVote rows u p else SetPostDislike rows u p := by
  unfold dislikePost
  rw [h]

/- ### Claim C1: the like toggle -/

/-- C1 counterexample: the claim includes a starting state where the user's
current vote is `+1`, but from `vote = +1` the first like removes the row and
the second like re-inserts it, so two likes in a row end with `currentVote =
some 1`, not absent. -/
theorem c1_like_twice_from_plus_one_not_absent :
    GetUserPostVote [VoteRow.mk 1 1 1] 1 1 = some 1 ∧
    GetUserPostVote (likePost (likePost [VoteRow.mk 1 1 1] 1 1) 1 1) 1 1 = some 1 := by
  constructor <;> rfl

/-- C1 (amended): for every user `U` and post `T`, invoking the like
operation twice in a row starting from any state where `U`'s current vote on
`T` is `-1` or absent leaves `U` with no vote row on `T`:
`currentVote(U,T)` is absent afterwards.  (From a current vote of `+1` the
pair of likes instead removes and then re-creates the like.) -/
theorem c1_like_toggle_off (rows : List VoteRow) (u p : Int)
    (h : GetUserPostVote rows u p = none ∨ GetUserPostVote rows u p = some (-1)) :
    GetUserPostVote (likePost (likePost rows u p) u p) u p = none := by
  have hlike : GetUserPostVote (likePost rows u p) u p = some 1 := by
    rcases h with hget | hget
    · rw [likePost_get_none rows u p hget]
      exact getUserPostVote_set rows u p 1
    · rw [likePost_get_some rows u p (-1) hget, if_neg (by decide)]
      exact getUserPostVote_set rows u p 1
  rw [likePost_get_some (likePost rows u p) u p 1 hlike, if_pos (by decide)]
  exact getUserPostVote_remove (likePost rows u p) u p

/-- C1 witness: a concrete run of the amended theorem from the no-vote
state. -/
theorem c1_like_toggle_off_witness :
    GetUserPostVote (likePost (likePost [] 3 7) 3 7) 3 7 = none :=
  c1_like_toggle_off [] 3 7 (Or.inl rfl)

/- ### Claim C2: vote exclusivity and no duplication -/

/-- C2: starting from any vote table satisfying the `(user_id, post_id)`
primary-key invariant, (a) the like and dislike operations both preserve the
at-most-one-row-per-key invariant, and (b) after `like(U,T)` followed by
`dislike(U,T)` the current vote of `U` on `T` is `-1` and exactly one vote
row exists for the pair `(U,T)`. -/
theorem c2_vote_exclusivity (rows : List VoteRow) (u p : Int)
    (hinv : AtMostOnePerKey rows) :
    AtMostOnePerKey (likePost rows u p) ∧
    AtMostOnePerKey (dislikePost rows u p) ∧
    GetUserPostVote (dislikePost (likePost rows u p) u p) u p = some (-1) ∧
    voteKeyCount (dislikePost (likePost rows u p) u p) u p = 1 := by
  have hcase : GetUserPostVote (likePost rows u p) u p = none ∨
      GetUserPostVote (likePost rows u p) u p = some 1 := by
    cases hget : GetUserPostVote rows u p with
    | none =>
      rw [likePost_get_none rows u p hget]
      exact Or.inr (getUserPostVote_set rows u p 1)
    | some v =>
      rw [likePost_get_some rows u p v hget]
      by_cases hv : (v == 1) = true
      · rw [if_pos hv]
        exact Or.inl (getUserPostVote_remove rows u p)
      · rw [if_neg hv]
        exact Or.inr (getUserPostVote_set rows u p 1)
  refine ⟨atMostOne_likePost rows u p hinv, atMostOne_dislikePost rows u p hinv, ?_, ?_⟩
  · rcases hcase with hget | hget
    · rw [dislikePost_get_none _ u p hget]
      exact getUserPostVote_set (likePost rows u p) u p (-1)
    · rw [dislikePost_get_some _ u p 1 hget, if_neg (by decide)]
      exact getUserPostVote_set (likePost rows u p) u p (-1)
  · have hinvL := atMostOne_likePost rows u p hinv
    rcases hcase with hget | hget
    · have h0 : voteKeyCount (likePost rows u p) u p = 0 :=
        (getUserPostVote_eq_none_iff _ u p).mp hget
      rw [dislikePost_get_none _ u p hget, SetPostDislike,
        voteKeyCount_set_absent _ u p (-1) u p (not_any_of_get_none _ u p hget),
        h0]
      simp
    · have hany := any_of_get_some _ u p 1 hget
      rw [dislikePost_get_some _ u p 1 hget, if_neg (by decide), SetPostDislike,
        voteKeyCount_set_present _ u p (-1) u p hany]
      have hpos := voteKeyCount_pos_of_get_some _ u p 1 hget
      have hle := hinvL u p
      omega

/-- C2 witness: a concrete run on the empty vote table. -/
theorem c2_vote_exclusivity_witness :
    GetUserPostVote (dislikePost (likePost [] 2 5) 2 5) 2 5 = some (-1) ∧
    voteKeyCount (dislikePost (likePost [] 2 5) 2 5) 2 5 = 1 := by
  have h := c2_vote_exclusivity [] 2 5 (fun u p => by simp [voteKeyCount])
  exact ⟨h.2.2.1, h.2.2.2⟩

/- ### Claim C3: derived vote statistics -/

/-- Partition lemma for the stats scan: when every vote is `1` or `-1`, the
rows counted as likes and as dislikes exactly split the rows of the post. -/
theorem filter_votes_partition (p : Int) :
    ∀ rows : List VoteRow, (∀ r ∈ rows, r.vote = 1 ∨ r.vote = -1) →
      (rows.filter (fun r => r.postId == p && r.vote == 1)).length +
        (rows.filter (fun r => r.postId == p && r.vote == (-1))).length =
        (rows.filter (fun r => r.postId == p)).length := by
  intro rows
  induction rows with
  | nil => intro hv; rfl
  | cons r rs ih =>
    intro hv
    have ih2 := ih (fun x hx => hv x (List.mem_cons_of_mem r hx))
    by_cases hp : (r.postId == p) = true
    · rcases hv r (List.mem_cons_self r rs) with h1 | h1 <;>
        simp [List.filter, hp, h1] <;> omega
    · simp [List.filter, hp, ih2]

/-- C3: for every vote table whose rows all carry a vote of `1` or `-1`
(the CHECK constraint of `post_votes`), the like count plus the dislike
count reported by `GetPostVoteStats` equals the number of vote rows for the
post at query time: the two partial sums partition the rows.  The counts are
recomputed by scanning the table on every call — `GetPostVoteStats` is
defined directly over the current rows, never over a cached aggregate. -/
theorem c3_vote_stats_partition (rows : List VoteRow) (u p : Int)
    (hv : ∀ r ∈ rows, r.vote = 1 ∨ r.vote = -1) :
    (GetPostVoteStats rows u p).likes + (GetPostVoteStats rows u p).dislikes =
      postRowCount rows p :=
  filter_votes_partition p rows hv

/-- C3 witness: a concrete two-row table, one like and one dislike. -/
theorem c3_vote_stats_partition_witness :
    (GetPostVoteStats [VoteRow.mk 1 4 1, VoteRow.mk 2 4 (-1)] 1 4).likes +
      (GetPostVoteStats [VoteRow.mk 1 4 1, VoteRow.mk 2 4 (-1)] 1 4).dislikes =
      postRowCount [VoteRow.mk 1 4 1, VoteRow.mk 2 4 (-1)] 4 :=
  c3_vote_stats_partition [VoteRow.mk 1 4 1, VoteRow.mk 2 4 (-1)] 1 4 (by decide)

/- ### Helper lemmas about key-filtered tables -/

/-- Filtering a table on the complement of a key leaves nothing that the
key's point query can find. -/
theorem find?_key_of_filter_ne {α β : Type} [BEq β] [LawfulBEq β]
    (l : List α) (f : α → β) (k : β) :
    (l.filter (fun a => f a != k)).find? (fun a => f a == k) = none := by
  rw [List.find?_eq_none]
  intro x hx
  rcases List.mem_filter.mp hx with ⟨-, h⟩
  rw [bne_iff_ne] at h
  simp [h]

/-- Filtering a table on the complement of a key leaves nothing that a
filter on the key keeps. -/
theorem filter_key_of_filter_ne {α β : Type} [BEq β] [LawfulBEq β]
    (l : List α) (f : α → β) (k : β) :
    (l.filter (fun a => f a != k)).filter (fun a => f a == k) = [] := by
  rw [List.filter_eq_nil_iff]
  intro x hx
  rcases List.mem_filter.mp hx with ⟨-, h⟩
  rw [bne_iff_ne] at h
  simp [h]

/- ### Helper lemmas about the session lifecycle -/

/-- Unfolding equation for `IsAuthenticated` when the token is not stored. -/
theorem isAuthenticated_not_found (store : List SessionRow) (m : SessionMirror)
    (sid : String) (now : Int) (f : Bool)
    (h : GetSessionData store sid = none) :
    IsAuthenticated store m (some sid) now f = ⟨false, 0, "", store, m⟩ := by
  simp only [IsAuthenticated]
  rw [h]

/-- Unfolding equation for `IsAuthenticated` on an expired session. -/
theorem isAuthenticated_expired (store : List SessionRow) (m : SessionMirror)
    (sid : String) (uid : Int) (role : String) (expiry now : Int) (f : Bool)
    (h : GetSessionData store sid = some (uid, role, expiry)) (hexp : expiry < now) :
    IsAuthenticated store m (some sid) now f =
      ⟨false, 0, "", if f then store else DeleteExpiredSession store sid, m⟩ := by
  simp only [IsAuthenticated]
  rw [h]
  dsimp only
  rw [if_pos hexp]

/-- Unfolding equation for `IsAuthenticated` on a live session. -/
theorem isAuthenticated_live (store : List SessionRow) (m : SessionMirror)
    (sid : String) (uid : Int) (role : String) (expiry now : Int) (f : Bool)
    (h : GetSessionData store sid = some (uid, role, expiry)) (hexp : ¬ expiry < now) :
    IsAuthenticated store m (some sid) now f =
      ⟨true, uid, role, store, mirrorInsert m sid ⟨uid, role, expiry⟩⟩ := by
  simp only [IsAuthenticated]
  rw [h]
  dsimp only
  rw [if_neg hexp]

/- ### Claim C4: expired-session resolution -/

/-- C4 counterexample: a stored session whose expiry equals `now` satisfies
the claim's `expiry <= now`, yet `IsAuthenticated` — which tests
`expiry.Before(time.Now())`, a strict comparison — treats it as live: it
authenticates and leaves the row in the store. -/
theorem c4_expiry_equal_now_still_authenticated :
    (100 : Int) ≤ 100 ∧
    (IsAuthenticated [SessionRow.mk tokA 1 userRole 100] [] (some tokA) 100 false).isAuth
      = true ∧
    (IsAuthenticated [SessionRow.mk tokA 1 userRole 100] [] (some tokA) 100 false).store
      = [SessionRow.mk tokA 1 userRole 100] := by
  decide

/-- C4 (amended): for every stored session whose expiry is strictly before
`now`, resolving the token returns Unauthenticated, and the session row is
deleted from the store as a side effect; a failing best-effort delete is
logged, leaves the row, and still yields Unauthenticated. -/
theorem c4_expired_session_resolution (store : List SessionRow) (m : SessionMirror)
    (sid : String) (uid : Int) (role : String) (expiry now : Int) (f : Bool)
    (h : GetSessionData store sid = some (uid, role, expiry)) (hexp : expiry < now) :
    (IsAuthenticated store m (some sid) now f).isAuth = false ∧
    GetSessionData (IsAuthenticated store m (some sid) now false).store sid = none := by
  constructor
  · rw [isAuthenticated_expired store m sid uid role expiry now f h hexp]
  · rw [isAuthenticated_expired store m sid uid role expiry now false h hexp]
    show GetSessionData (DeleteExpiredSession store sid) sid = none
    unfold GetSessionData DeleteExpiredSession
    rw [find?_key_of_filter_ne store SessionRow.sessionId sid]
    rfl

/-- C4 witness: a concrete expired session (expiry 50, now 100). -/
theorem c4_expired_session_resolution_witness :
    (IsAuthenticated [SessionRow.mk tokA 1 userRole 50] [] (some tokA) 100 true).isAuth
      = false ∧
    GetSessionData
      (IsAuthenticated [SessionRow.mk tokA 1 userRole 50] [] (some tokA) 100 false).store
      tokA = none :=
  c4_expired_session_resolution [SessionRow.mk tokA 1 userRole 50] [] tokA 1 userRole
    50 100 true (by decide) (by decide)

/- ### Claim C5: single-active-session policy -/

/-- C5: creating a fresh session for a user first deletes every session row
of that user, so any previously issued token of the user — distinct from
the freshly generated UUID — no longer resolves: the store lookup finds
nothing and `IsAuthenticated` returns Unauthenticated for it at any later
time. -/
theorem c5_single_active_session (store : List SessionRow) (m : SessionMirror)
    (uid : Int) (role : String) (now later : Int) (oldSid newSid : String) (f : Bool)
    (hne : oldSid ≠ newSid)
    (hold : ∀ r ∈ store, r.sessionId = oldSid → r.userId = uid) :
    GetSessionData (loginCreateSession store m uid role now newSid).fst oldSid = none ∧
    (IsAuthenticated (loginCreateSession store m uid role now newSid).fst
      (loginCreateSession store m uid role now newSid).snd
      (some oldSid) later f).isAuth = false := by
  have hnone : GetSessionData (loginCreateSession store m uid role now newSid).fst
      oldSid = none := by
    show GetSessionData
      (CreateSession (DeleteUserSessions store uid) newSid uid role (now + 86400))
      oldSid = none
    unfold GetSessionData CreateSession DeleteUserSessions
    rw [List.find?_append]
    have h1 : (store.filter (fun r => r.userId != uid)).find?
        (fun r => r.sessionId == oldSid) = none := by
      rw [List.find?_eq_none]
      intro x hx hkey
      rcases List.mem_filter.mp hx with ⟨hmem, hneq⟩
      have hxu := hold x hmem (eq_of_beq hkey)
      rw [bne_iff_ne] at hneq
      exact hneq hxu
    have h2 : ([(⟨newSid, uid, role, now + 86400⟩ : SessionRow)]).find?
        (fun r => r.sessionId == oldSid) = none := by
      rw [List.find?_eq_none]
      intro x hx hkey
      have hx2 := List.mem_singleton.mp hx
      subst hx2
      exact hne (eq_of_beq hkey).symm
    rw [h1, h2]
    rfl
  exact ⟨hnone, by
    rw [isAuthenticated_not_found _ _ oldSid later f hnone]⟩

/-- C5 witness: logging in again as user 1 kills their old token. -/
theorem c5_single_active_session_witness :
    GetSessionData
      (loginCreateSession [SessionRow.mk tokA 1 userRole 500] [] 1 userRole 0 tokB).fst
      tokA = none ∧
    (IsAuthenticated
      (loginCreateSession [SessionRow.mk tokA 1 userRole 500] [] 1 userRole 0 tokB).fst
      (loginCreateSession [SessionRow.mk tokA 1 userRole 500] [] 1 userRole 0 tokB).snd
      (some tokA) 0 false).isAuth = false :=
  c5_single_active_session [SessionRow.mk tokA 1 userRole 500] [] 1 userRole 0 0
    tokA tokB false (by decide) (by decide)

/- ### Claim C6: session-creation effects -/

/-- C6 counterexample: the login flow persists the new session row with
expiry `now + 24h`, but the in-memory mirror has no entry for the new token
afterwards — `LoginHandler` never writes `database.Sessions`, contradicting
the claim's mirror conjunct. -/
theorem c6_login_does_not_write_mirror :
    GetSessionData (loginCreateSession [] [] 1 userRole 0 tokB).fst tokB
      = some (1, userRole, 86400) ∧
    mirrorGet (loginCreateSession [] [] 1 userRole 0 tokB).snd tokB = none := by
  decide

/-- C6 (amended): session creation persists a session record whose expiry is
`now` plus 24 hours and leaves the in-memory mirror untouched; the mirror
entry for the new token appears only on the next successful resolution of
the token, which copies (userID, role, expiry) into the mirror. -/
theorem c6_create_session_effects (store : List SessionRow) (m : SessionMirror)
    (uid : Int) (role : String) (now : Int) (newSid : String)
    (hfresh : ∀ r ∈ store, r.sessionId ≠ newSid) :
    GetSessionData (loginCreateSession store m uid role now newSid).fst newSid =
      some (uid, role, now + 86400) ∧
    (loginCreateSession store m uid role now newSid).snd = m ∧
    mirrorGet (IsAuthenticated (loginCreateSession store m uid role now newSid).fst m
      (some newSid) now false).mirror newSid = some ⟨uid, role, now + 86400⟩ := by
  have hget : GetSessionData (loginCreateSession store m uid role now newSid).fst
      newSid = some (uid, role, now + 86400) := by
    show GetSessionData
      (CreateSession (DeleteUserSessions store uid) newSid uid role (now + 86400))
      newSid = some (uid, role, now + 86400)
    unfold GetSessionData CreateSession DeleteUserSessions
    rw [List.find?_append]
    have h1 : (store.filter (fun r => r.userId != uid)).find?
        (fun r => r.sessionId == newSid) = none := by
      rw [List.find?_eq_none]
      intro x hx hkey
      rcases List.mem_filter.mp hx with ⟨hmem, -⟩
      exact hfresh x hmem (eq_of_beq hkey)
    rw [h1]
    simp [List.find?]
  refine ⟨hget, rfl, ?_⟩
  rw [isAuthenticated_live _ m newSid uid role (now + 86400) now false hget (by omega)]
  simp [mirrorGet, mirrorInsert, List.find?]

/-- C6 witness: a concrete login into an empty store at time 0. -/
theorem c6_create_session_effects_witness :
    GetSessionData (loginCreateSession [] [] 1 userRole 0 tokB).fst tokB =
      some (1, userRole, 86400) ∧
    (loginCreateSession [] [] 1 userRole 0 tokB).snd = ([] : SessionMirror) ∧
    mirrorGet (IsAuthenticated (loginCreateSession [] [] 1 userRole 0 tokB).fst []
      (some tokB) 0 false).mirror tokB = some ⟨1, userRole, 86400⟩ :=
  c6_create_session_effects [] [] 1 userRole 0 tokB (by decide)

/- ### Claim C9: logout semantics -/

/-- C9: logging out with a session cookie deletes the session row from the
store and removes the in-memory mirror entry, and clears the session cookie;
when the persisted delete fails the cookie is cleared anyway (the failure is
only logged). -/
theorem c9_logout_semantics (store : List SessionRow) (m : SessionMirror) (sid : String) :
    GetSessionData (LogoutHandler store m (some sid) false).store sid = none ∧
    mirrorGet (LogoutHandler store m (some sid) false).mirror sid = none ∧
    (LogoutHandler store m (some sid) false).cookieCleared = true ∧
    (LogoutHandler store m (some sid) true).cookieCleared = true := by
  refine ⟨?_, ?_, rfl, rfl⟩
  · show GetSessionData (store.filter (fun r => r.sessionId != sid)) sid = none
    unfold GetSessionData
    rw [find?_key_of_filter_ne store SessionRow.sessionId sid]
    rfl
  · show mirrorGet (mirrorErase m sid) sid = none
    unfold mirrorGet mirrorErase
    rw [find?_key_of_filter_ne m Prod.fst sid]
    rfl

/- ### Helper lemmas about the cascade coordinators -/

/-- Unfolding equation for `DeletePostHandler` when the post exists and the
caller is the owner or an admin: the handler succeeds after removing the
category links, the comments, the votes and the post row. -/
theorem deletePostHandler_ok (s : DBState) (uid : Int) (role : String) (pid owner : Int)
    (hfind : GetPostOwnerID s.posts pid = some owner)
    (hauth : uid = owner ∨ role = "admin") :
    DeletePostHandler s uid role pid =
      (DeleteOutcome.ok,
        ⟨DeletePost s.posts pid, DeletePostCategories s.postCategories pid,
          DeletePostComments s.comments pid, DeletePostVotes s.postVotes pid,
          s.commentVotes⟩) := by
  simp only [DeletePostHandler]
  rw [hfind]
  dsimp only
  have hcond : (uid != owner && role != "admin") = false := by
    rcases hauth with h | h <;> simp [h]
  rw [hcond]
  rfl

/-- Unfolding equation for `DeletePostHandler` when the post row is absent:
404 Not Found, no mutation. -/
theorem deletePostHandler_not_found (s : DBState) (uid : Int) (role : String) (pid : Int)
    (h : GetPostOwnerID s.posts pid = none) :
    DeletePostHandler s uid role pid = (DeleteOutcome.notFound, s) := by
  simp only [DeletePostHandler]
  rw [h]

/-- After `DeletePost` the ownership lookup for the post fails. -/
theorem getPostOwnerID_delete (posts : List PostRow) (pid : Int) :
    GetPostOwnerID (DeletePost posts pid) pid = none := by
  unfold GetPostOwnerID DeletePost
  rw [find?_key_of_filter_ne posts PostRow.id pid]
  rfl

/-- Unfolding equation for `DeleteCommentHandler` when the comment exists
and the caller is the owner or an admin. -/
theorem deleteCommentHandler_ok (s : DBState) (uid : Int) (role : String) (cid owner : Int)
    (hfind : GetCommentOwnerID s.comments cid = some owner)
    (hauth : uid = owner ∨ role = "admin") :
    DeleteCommentHandler s uid role cid =
      (DeleteOutcome.ok,
        ⟨s.posts, s.postCategories, DeleteComment s.comments cid, s.postVotes,
          DeleteCommentVotes s.commentVotes cid⟩) := by
  simp only [DeleteCommentHandler]
  rw [hfind]
  dsimp only
  have hcond : (role != "admin" && uid != owner) = false := by
    rcases hauth with h | h <;> simp [h]
  rw [hcond]
  rfl

/- ### Claim C7: cascade-delete ordering and completeness -/

/-- C7: deleting an existing post as its owner or an admin succeeds and —
performing, in the source's order, removal of the category links, the
comments, the votes and the post row, all unconditionally — leaves no row
referencing the post in any of the four tables; deleting an existing
comment as its owner or an admin removes the comment's votes before the
comment row and leaves neither. -/
theorem c7_cascade_delete_complete :
    (∀ (s : DBState) (uid : Int) (role : String) (pid owner : Int),
      GetPostOwnerID s.posts pid = some owner → (uid = owner ∨ role = "admin") →
      (DeletePostHandler s uid role pid).fst = DeleteOutcome.ok ∧
      (DeletePostHandler s uid role pid).snd.postCategories.filter
        (fun r => r.postId == pid) = [] ∧
      (DeletePostHandler s uid role pid).snd.comments.filter
        (fun r => r.postId == pid) = [] ∧
      (DeletePostHandler s uid role pid).snd.postVotes.filter
        (fun r => r.postId == pid) = [] ∧
      (DeletePostHandler s uid role pid).snd.posts.filter
        (fun r => r.id == pid) = []) ∧
    (∀ (s : DBState) (uid : Int) (role : String) (cid owner : Int),
      GetCommentOwnerID s.comments cid = some owner → (uid = owner ∨ role = "admin") →
      (DeleteCommentHandler s uid role cid).fst = DeleteOutcome.ok ∧
      (DeleteCommentHandler s uid role cid).snd.commentVotes.filter
        (fun r => r.commentId == cid) = [] ∧
      (DeleteCommentHandler s uid role cid).snd.comments.filter
        (fun r => r.id == cid) = []) := by
  constructor
  · intro s uid role pid owner hfind hauth
    rw [deletePostHandler_ok s uid role pid owner hfind hauth]
    refine ⟨rfl, ?_, ?_, ?_, ?_⟩
    · exact filter_key_of_filter_ne s.postCategories PostCatRow.postId pid
    · exact filter_key_of_filter_ne s.comments CommentRow.postId pid
    · exact filter_key_of_filter_ne s.postVotes VoteRow.postId pid
    · exact filter_key_of_filter_ne s.posts PostRow.id pid
  · intro s uid role cid owner hfind hauth
    rw [deleteCommentHandler_ok s uid role cid owner hfind hauth]
    refine ⟨rfl, ?_, ?_⟩
    · exact filter_key_of_filter_ne s.commentVotes CommentVoteRow.commentId cid
    · exact filter_key_of_filter_ne s.comments CommentRow.id cid

/-- C7 witness: concrete cascade deletes on the sample state, by the post's
owner (user 1) and the comment's owner (user 2). -/
theorem c7_cascade_delete_complete_witness :
    (DeletePostHandler sampleState 1 userRole 1).fst = DeleteOutcome.ok ∧
    (DeletePostHandler sampleState 1 userRole 1).snd.posts.filter
      (fun r => r.id == 1) = [] ∧
    (DeleteCommentHandler sampleState 2 userRole 1).fst = DeleteOutcome.ok ∧
    (DeleteCommentHandler sampleState 2 userRole 1).snd.comments.filter
      (fun r => r.id == 1) = [] := by
  have h1 := c7_cascade_delete_complete.1 sampleState 1 userRole 1 1
    (by decide) (Or.inl rfl)
  have h2 := c7_cascade_delete_complete.2 sampleState 2 userRole 1 2
    (by decide) (Or.inl rfl)
  exact ⟨h1.1, h1.2.2.2.2, h2.1, h2.2.2⟩

/- ### Claim C8: delete idempotence at the public interface -/

/-- C8 counterexample: after a successful delete of post 1 by its owner, a
second `DeletePostHandler` call for the same post does fail — the ownership
lookup hits `sql.ErrNoRows` and the handler answers 404 Not Found with
`success: false` instead of succeeding as a no-op. -/
theorem c8_second_delete_errors :
    (DeletePostHandler sampleState 1 userRole 1).fst = DeleteOutcome.ok ∧
    (DeletePostHandler (DeletePostHandler sampleState 1 userRole 1).snd 1 userRole 1).fst
      = DeleteOutcome.notFound := by
  decide

/-- C8 (amended): calling `deletePost(P)` a second time after a successful
delete fails with the handler's NotFound signal and performs no further
mutation: the ownership lookup finds no row, so the handler refuses before
reaching the row deletes (which are themselves no-ops on absent rows). -/
theorem c8_second_delete_not_found (s : DBState) (uid : Int) (role : String)
    (pid owner : Int)
    (hfind : GetPostOwnerID s.posts pid = some owner)
    (hauth : uid = owner ∨ role = "admin") :
    (DeletePostHandler (DeletePostHandler s uid role pid).snd uid role pid).fst =
      DeleteOutcome.notFound ∧
    (DeletePostHandler (DeletePostHandler s uid role pid).snd uid role pid).snd =
      (DeletePostHandler s uid role pid).snd := by
  have h1 := deletePostHandler_ok s uid role pid owner hfind hauth
  have h2 : GetPostOwnerID (DeletePostHandler s uid role pid).snd.posts pid = none := by
    rw [h1]
    exact getPostOwnerID_delete s.posts pid
  rw [deletePostHandler_not_found _ uid role pid h2]
  exact ⟨rfl, rfl⟩

/-- C8 witness: the concrete second delete on the sample state. -/
theorem c8_second_delete_not_found_witness :
    (DeletePostHandler (DeletePostHandler sampleState 1 userRole 1).snd 1 userRole 1).fst
      = DeleteOutcome.notFound :=
  (c8_second_delete_not_found sampleState 1 userRole 1 1 (by decide) (Or.inl rfl)).1

/- ### Claim C10: comment length validation -/

/-- C10: for an authenticated comment-creation request with a parsed post
id, the request is rejected (`success = false`, comments table unchanged)
exactly when the whitespace-trimmed content is shorter than 3 bytes or
longer than 500 bytes; when accepted, the row appended to the comments
table stores the original, untrimmed content. -/
theorem c10_comment_length_validation (cs : List CommentRow) (uid pid newId : Int)
    (content : List Char) :
    ((CommentHandler cs uid pid newId content).success = false ↔
      (byteLen (trimSpace content) < 3 ∨ byteLen (trimSpace content) > 500)) ∧
    ((CommentHandler cs uid pid newId content).success = false →
      (CommentHandler cs uid pid newId content).comments = cs) ∧
    ((CommentHandler cs uid pid newId content).success = true →
      (CommentHandler cs uid pid newId content).comments =
        cs ++ [CommentRow.mk newId pid uid content]) := by
  unfold CommentHandler
  by_cases h0 : (content == []) = true
  · have hc : content = [] := by simpa using h0
    subst hc
    rw [if_pos h0]
    exact ⟨⟨fun _ => Or.inl (by decide), fun _ => rfl⟩, fun _ => rfl,
      fun hs => Bool.noConfusion hs⟩
  · rw [if_neg h0]
    by_cases h1 : (trimSpace content == []) = true
    · have ht : trimSpace content = [] := by simpa using h1
      rw [if_pos h1]
      refine ⟨⟨fun _ => Or.inl ?_, fun _ => rfl⟩, fun _ => rfl,
        fun hs => Bool.noConfusion hs⟩
      rw [ht]
      decide
    · rw [if_neg h1]
      by_cases h2 : byteLen (trimSpace content) < 3
      · rw [if_pos h2]
        exact ⟨⟨fun _ => Or.inl h2, fun _ => rfl⟩, fun _ => rfl,
          fun hs => Bool.noConfusion hs⟩
      · rw [if_neg h2]
        by_cases h3 : byteLen (trimSpace content) > 500
        · rw [if_pos h3]
          exact ⟨⟨fun _ => Or.inr h3, fun _ => rfl⟩, fun _ => rfl,
            fun hs => Bool.noConfusion hs⟩
        · rw [if_neg h3]
          refine ⟨⟨fun hs => Bool.noConfusion hs, fun hr => ?_⟩,
            fun hs => Bool.noConfusion hs, fun _ => rfl⟩
          rcases hr with h | h
          · exact absurd h h2
          · exact absurd h h3

/-- C10 witness: a concrete three-byte comment is accepted and stored
verbatim. -/
theorem c10_comment_length_validation_witness :
    (CommentHandler [] 1 1 1 ['h', 'e', 'y']).success = true ∧
    (CommentHandler [] 1 1 1 ['h', 'e', 'y']).comments =
      [] ++ [CommentRow.mk 1 1 1 ['h', 'e', 'y']] :=
  ⟨by decide, (c10_comment_length_validation [] 1 1 1 ['h', 'e', 'y']).2.2 (by decide)⟩

end Forum

